import Mathlib

set_option maxRecDepth 4000

deriving instance DecidableEq for Except

namespace Qutebrowser

/-!
Shallow embedding of qutebrowser's command dispatch and statusbar prompt
subsystem (`qutebrowser/commands/_command.py` and
`qutebrowser/widgets/statusbar/_prompt.py`).

Python exceptions are modelled with `Except` / explicit error slots, Python
`None` with `Option`, and Qt signal emissions as explicit lists of emitted
signals. The model keeps the source's evaluation order (mode gating before the
arity check, state mutations before a later raise, and so on).
-/

/-- Errors raised by `Command.check` (`qutebrowser/commands/_exceptions.py`). -/
inductive CmdError where
  | invalidMode (msg : String)
  | argumentCount (msg : String)
deriving DecidableEq, Repr

/-- Python-level runtime errors surfaced by the modelled code paths. -/
inductive PyError where
  | typeError
  | valueError
  | attributeError
deriving DecidableEq, Repr

/-- The `Command` descriptor (`_command.py`). `nargs` is split into its two
components; `nargsMax = none` models the unbounded (`None`) upper bound.
`inst` models the `instance` attribute (a dotted path or `None`); the handler
itself is kept abstract, only its `__name__` is needed by `run`. -/
structure Command where
  name : String
  maxsplit : Int
  hide : Bool
  nargsMin : Nat
  nargsMax : Option Nat
  count : Bool
  desc : String
  inst : Option String
  handlerName : String
  completion : List String
  modes : Option (List String)
  notModes : Option (List String)
deriving DecidableEq, Repr

/-- `Command.check`: mode gating first (an `if`/`elif` pair), then the arity
check mirroring the source's three-way `if`/`elif`/`else`. The current mode is
passed explicitly (the source reads it from the global mode manager). -/
def Command.check (c : Command) (currentMode : String) (args : List String) :
    Except CmdError Unit :=
  if (match c.modes with
      | some ms => !(ms.contains currentMode)
      | none => false) then
    .error (.invalidMode ("This command is only allowed in " ++
      String.intercalate "/" (c.modes.getD []) ++ " mode."))
  else if (match c.notModes with
      | some ms => ms.contains currentMode
      | none => false) then
    .error (.invalidMode ("This command is not allowed in " ++
      String.intercalate "/" (c.notModes.getD []) ++ " mode."))
  else if c.nargsMax.isNone && decide (c.nargsMin ≤ args.length) then
    .ok ()
  else if decide (c.nargsMin ≤ args.length) && (match c.nargsMax with
      | some mx => decide (args.length ≤ mx)
      | none => false) then
    .ok ()
  else
    .error (.argumentCount (
      (if c.nargsMax = some c.nargsMin then toString c.nargsMin
       else match c.nargsMax with
         | none => toString c.nargsMin ++ "-inf"
         | some mx => toString c.nargsMin ++ "-" ++ toString mx)
      ++ " args expected, but got " ++ toString args.length))

/-- Outcome of `Command.run`: either an indirect dispatch (a tuple emitted on
the `signal` for the app-level executor) or a direct handler call (`*args`,
with or without the `count` keyword). -/
inductive Dispatch where
  | indirect (inst handlerName : String) (count : Option Int)
      (args : Option (List String))
  | directWithCount (args : List String) (count : Int)
  | direct (args : List String)
deriving DecidableEq, Repr

/-- `Command.run` (the debug logging is behaviour-free and omitted). The two
direct branches unpack `*args`; unpacking Python `None` raises `TypeError`
before the handler is entered. -/
def Command.run (c : Command) (args : Option (List String))
    (count : Option Int) : Except PyError Dispatch :=
  if c.inst.isSome && c.count && count.isSome then
    .ok (.indirect (c.inst.getD "") c.handlerName count args)
  else if c.inst.isSome then
    .ok (.indirect (c.inst.getD "") c.handlerName none args)
  else
    match args with
    | none => .error .typeError
    | some as =>
      match count, c.count with
      | some k, true => .ok (.directWithCount as k)
      | _, _ => .ok (.direct as)

/-- The four documented dispatch outcomes. -/
inductive DispatchKind where
  | indirectWithCount
  | indirectNoCount
  | directWithCount
  | directNoCount
deriving DecidableEq, Repr

/-- The spec's dispatch-selection table, a pure function of
`(instance is null?, count provided?, command.count)`. -/
def dispatchSelect (instNull countProvided acceptsCount : Bool) :
    DispatchKind :=
  if !instNull && acceptsCount && countProvided then .indirectWithCount
  else if !instNull then .indirectNoCount
  else if countProvided && acceptsCount then .directWithCount
  else .directNoCount

/-- Classify a `run` outcome by its dispatch kind. -/
def dispatchKind : Except PyError Dispatch → Option DispatchKind
  | .ok (.indirect _ _ (some _) _) => some .indirectWithCount
  | .ok (.indirect _ _ none _) => some .indirectNoCount
  | .ok (.directWithCount _ _) => some .directWithCount
  | .ok (.direct _) => some .directNoCount
  | .error _ => none

/-- Prompt modes. The source matches on the `PromptMode` enum and raises
`ValueError` on any other value; `invalid` stands for such a non-member value,
which the dynamically-typed source cannot rule out. -/
inductive PromptMode where
  | yesno
  | text
  | user_pwd
  | invalid
deriving DecidableEq, Repr

/-- A dynamically-typed Python value as stored in `Question.default`:
`None`, a boolean (yes/no questions) or a string (text questions). -/
inductive PyVal where
  | null
  | bool (b : Bool)
  | str (s : String)
deriving DecidableEq, Repr

/-- Python truthiness of a `PyVal` (`if q.default:`). -/
def PyVal.truthy : PyVal → Bool
  | .null => false
  | .bool b => b
  | .str s => s != ""

/-- A recorded answer: a plain string (text/yesno) or the
`(user, password)` tuple built by the second `user_pwd` accept step. -/
inductive Answer where
  | str (s : String)
  | userPwd (user : Option String) (pwd : String)
deriving DecidableEq, Repr

/-- Modelled from the spec: the `Question` value object lives in
`qutebrowser.utils.usertypes`, which is not part of the sources here. Per the
spec it carries `mode`, `text`, `default`, `user` and `answer` slots, with
`user` and `answer` null until filled in. -/
structure Question where
  mode : PromptMode
  text : String
  default : PyVal
  user : Option String := none
  answer : Option Answer := none
deriving DecidableEq, Repr

/-- `QLineEdit` echo modes used by the prompt. -/
inductive EchoMode where
  | Normal
  | Password
deriving DecidableEq, Repr

/-- Signals emitted by the prompt machinery: the widget's own Qt signals,
the question's `answered` notification, and calls into the mode manager. -/
inductive Sig where
  | showPrompt
  | hidePrompt
  | cancelled
  | answered
  | leaveMode (mode reason : String)
deriving DecidableEq, Repr

/-- The `Prompt` widget's mutable state: the in-flight question, the label
(`_txt`) text, and the input field's (`_input`) text, echo mode and
visibility. -/
structure Prompt where
  question : Option Question := none
  txtText : String := ""
  inputText : String := ""
  inputEcho : EchoMode := .Normal
  inputVisible : Bool := true
deriving DecidableEq, Repr

/-- One Python call on the prompt: the state after the call (mutations made
before a raise persist, as in Python), the signals emitted, and the exception
raised, if any. -/
structure StepResult where
  state : Prompt
  sigs : List Sig
  err : Option PyError := none
deriving DecidableEq, Repr

/-- Modelled from the spec: recording an answer is exactly the event that
fires the question's `answered` notification (it fires at the moment `answer`
transitions from null to non-null). -/
def answeredSigs (prev : Option Answer) : List Sig :=
  match prev with
  | none => [.answered]
  | some _ => []

/-- `Prompt.display`. Follows the source's branch structure: the yesno suffix
from `default`, label/field updates for `text` and `user_pwd`, `ValueError`
on any other mode, and the final `show_prompt` emission. Passing a non-string
truthy `default` to `QLineEdit.setText` raises `TypeError`. Focus handling
(`setFocus` and the focus-in mode entry) is external and not modelled. -/
def Prompt.display (p : Prompt) : StepResult :=
  match p.question with
  | none => { state := p, sigs := [], err := some .attributeError }
  | some q =>
    match q.mode with
    | .yesno =>
      let sfx :=
        if q.default = PyVal.null then " [y/n]"
        else if q.default.truthy then " [Y/n]"
        else " [y/N]"
      { state := { p with txtText := q.text ++ sfx, inputVisible := false },
        sigs := [.showPrompt] }
    | .text =>
      let p1 := { p with txtText := q.text }
      if q.default.truthy then
        match q.default with
        | .str s =>
          { state := { p1 with inputText := s, inputVisible := true },
            sigs := [.showPrompt] }
        | _ => { state := p1, sigs := [], err := some .typeError }
      else
        { state := { p1 with inputVisible := true }, sigs := [.showPrompt] }
    | .user_pwd =>
      let p1 := { p with txtText := q.text }
      if q.default.truthy then
        match q.default with
        | .str s =>
          { state := { p1 with inputText := s, inputVisible := true },
            sigs := [.showPrompt] }
        | _ => { state := p1, sigs := [], err := some .typeError }
      else
        { state := { p1 with inputVisible := true }, sigs := [.showPrompt] }
    | .invalid => { state := p, sigs := [], err := some .valueError }

/-- `Prompt.ask_question` up to the optional blocking wait: stores the
question, then displays it. The assignment to `self.question` happens before
`display()` runs, so it persists even when `display` raises. -/
def Prompt.askQuestion (p : Prompt) (q : Question) : StepResult :=
  Prompt.display { p with question := some q }

/-- `Prompt.prompt_accept`: the `user_pwd` username step, the `user_pwd`
password step, and the generic (yesno/text) step. -/
def Prompt.promptAccept (p : Prompt) : StepResult :=
  match p.question with
  | none => { state := p, sigs := [], err := some .attributeError }
  | some q =>
    if q.mode = .user_pwd && q.user.isNone then
      { state := { p with
          question := some ({ q with user := some p.inputText }),
          txtText := "Password:", inputText := "", inputEcho := .Password },
        sigs := [] }
    else if q.mode = .user_pwd then
      { state := { p with
          question := some
            { q with answer := some (.userPwd q.user p.inputText) } },
        sigs := answeredSigs q.answer ++
          [.leaveMode "prompt" "prompt accept", .hidePrompt] }
    else
      { state := { p with
          question := some { q with answer := some (.str p.inputText) } },
        sigs := answeredSigs q.answer ++ [.leaveMode "prompt" "prompt accept"] }

/-- `Prompt.on_mode_left`: for mode `"prompt"`, clear the label and field,
reset the echo mode, emit `hide_prompt`, and emit `cancelled` iff the
question's answer is still null. Reading `self.question.answer` with no
question stored raises `AttributeError` (after the clears and the
`hide_prompt` emission). -/
def Prompt.onModeLeft (p : Prompt) (mode : String) : StepResult :=
  if mode = "prompt" then
    let p1 := { p with txtText := "", inputText := "", inputEcho := .Normal }
    match p.question with
    | none => { state := p1, sigs := [.hidePrompt], err := some .attributeError }
    | some q =>
      if q.answer = none then
        { state := p1, sigs := [.hidePrompt, .cancelled] }
      else
        { state := p1, sigs := [.hidePrompt] }
  else
    { state := p, sigs := [] }

/-- External events driving the prompt while a question is in flight. -/
inductive UserEvent where
  | accept
  | modeLeft (mode : String)
deriving DecidableEq, Repr

/-- Deliver one user event to the prompt. -/
def Prompt.step (p : Prompt) : UserEvent → StepResult
  | .accept => p.promptAccept
  | .modeLeft m => p.onModeLeft m

/-- The signal, among those emitted by one step, that quits the local event
loop in `exec_` (both `answered` and `cancelled` are connected to
`loop.quit`). -/
def quitSig (sigs : List Sig) : Option Sig :=
  if sigs.contains .answered then some .answered
  else if sigs.contains .cancelled then some .cancelled
  else none

/-- `Prompt.exec_` as a function of the event trace: spin until a step emits
`answered` or `cancelled`, then return which signal quit the loop together
with `self.question.answer` at that moment. `none` if the loop never quits. -/
def Prompt.execLoop : Prompt → List UserEvent → Option (Sig × Option Answer)
  | _, [] => none
  | p, e :: es =>
    let r := p.step e
    match quitSig r.sigs with
    | some s => some (s, r.state.question.bind Question.answer)
    | none => Prompt.execLoop r.state es

/-- `Prompt.ask_question` with its `blocking` flag: the display step plus the
value the call returns — `some v` when the call returns normally with `v`
(`v = none` is Python `None`), `none` when it raises or never returns. -/
def Prompt.askQuestionB (p : Prompt) (q : Question) (blocking : Bool)
    (evs : List UserEvent) : StepResult × Option (Option Answer) :=
  let r := p.askQuestion q
  if r.err.isSome then (r, none)
  else if blocking then (r, (r.state.execLoop evs).map Prod.snd)
  else (r, some none)

/-! ## Concrete sample objects for witnesses and counterexamples -/

/-- A command with bounded arity `(2, 4)`, no gating, no instance. -/
def openCmd : Command :=
  { name := "open", maxsplit := 0, hide := false, nargsMin := 2,
    nargsMax := some 4, count := false, desc := "open a url", inst := none,
    handlerName := "openurl", completion := [], modes := none,
    notModes := none }

/-- A mode-gated command bound to an instance, accepting a count. -/
def tabCmd : Command :=
  { name := "tabopen", maxsplit := 0, hide := false, nargsMin := 1,
    nargsMax := some 1, count := true, desc := "open a tab",
    inst := some "mainwindow.tabs", handlerName := "tabopen",
    completion := [], modes := some ["command"], notModes := none }

/-! ## Claims about `Command` -/

/-- C1: with no mode gating in the way, `check` succeeds iff
`min ≤ len(args)` and (`max` unbounded or `len(args) ≤ max`); otherwise it
raises `ArgumentCountError` whose message renders the expected range as
`"{min}"` when `min = max`, `"{min}-inf"` when `max` is unbounded, and
`"{min}-{max}"` otherwise, followed by the actual count. -/
theorem check_arity (c : Command) (mode : String) (args : List String)
    (hm : c.modes = none) (hnm : c.notModes = none) :
    (c.check mode args = .ok () ↔
      (c.nargsMin ≤ args.length ∧
        (c.nargsMax = none ∨ ∃ mx, c.nargsMax = some mx ∧ args.length ≤ mx))) ∧
    (c.check mode args ≠ .ok () →
      ((c.nargsMax = some c.nargsMin →
          c.check mode args = .error (.argumentCount
            (toString c.nargsMin ++ " args expected, but got " ++
              toString args.length))) ∧
       (c.nargsMax = none →
          c.check mode args = .error (.argumentCount
            (toString c.nargsMin ++ "-inf" ++ " args expected, but got " ++
              toString args.length))) ∧
       (∀ mx, c.nargsMax = some mx → mx ≠ c.nargsMin →
          c.check mode args = .error (.argumentCount
            (toString c.nargsMin ++ "-" ++ toString mx ++
              " args expected, but got " ++ toString args.length))))) := by
  constructor
  · rcases hmax : c.nargsMax with _ | mx
    · by_cases h : c.nargsMin ≤ args.length <;>
        simp [Command.check, hm, hnm, hmax, h]
    · by_cases h1 : c.nargsMin ≤ args.length
      · by_cases h2 : args.length ≤ mx <;>
          simp [Command.check, hm, hnm, hmax, h1, h2]
      · simp [Command.check, hm, hnm, hmax, h1]
  · intro hfail
    refine ⟨?_, ?_, ?_⟩
    · intro heq
      by_cases h1 : c.nargsMin ≤ args.length
      · by_cases h2 : args.length ≤ c.nargsMin
        · exact absurd (by simp [Command.check, hm, hnm, heq, h1, h2]) hfail
        · simp [Command.check, hm, hnm, heq, h1, h2]
      · simp [Command.check, hm, hnm, heq, h1]
    · intro heq
      by_cases h1 : c.nargsMin ≤ args.length
      · exact absurd (by simp [Command.check, hm, hnm, heq, h1]) hfail
      · simp [Command.check, hm, hnm, heq, h1]
    · intro mx heq hne
      by_cases h1 : c.nargsMin ≤ args.length
      · by_cases h2 : args.length ≤ mx
        · exact absurd (by simp [Command.check, hm, hnm, heq, h1, h2]) hfail
        · simp [Command.check, hm, hnm, heq, h1, h2, hne]
      · simp [Command.check, hm, hnm, heq, h1, hne]

/-- C1 witness: `openCmd` has `nargs = (2, 4)`; one argument is rejected with
the message `"2-4 args expected, but got 1"`. -/
theorem check_arity_witness :
    openCmd.modes = none ∧ openCmd.notModes = none ∧
    openCmd.check "normal" ["a"] ≠ .ok () ∧
    openCmd.check "normal" ["a"] =
      .error (.argumentCount "2-4 args expected, but got 1") := by
  refine ⟨rfl, rfl, by decide, ?_⟩
  exact ((check_arity openCmd "normal" ["a"] rfl rfl).2 (by decide)).2.2
    4 rfl (by decide)

/-- C2: the dispatch chosen by `run` is the documented pure function of
`(instance is null?, count provided?, command.count)`, and in the
indirect-with-count case the emitted tuple is exactly
`(instance, handler_name, count, args)`. -/
theorem run_dispatch (c : Command) (args : List String) (count : Option Int) :
    dispatchKind (c.run (some args) count) =
      some (dispatchSelect c.inst.isNone count.isSome c.count) ∧
    (∀ i k, c.inst = some i → count = some k → c.count = true →
      c.run (some args) count =
        .ok (.indirect i c.handlerName (some k) (some args))) := by
  constructor
  · cases hi : c.inst <;> cases hc : count <;> cases hb : c.count <;>
      simp [Command.run, dispatchKind, dispatchSelect, hi, hc, hb]
  · intro i k hi hc hb
    simp [Command.run, hi, hc, hb]

/-- C2 witness: `tabCmd` has an instance and accepts a count; with a provided
count the routed tuple is emitted. -/
theorem run_dispatch_witness :
    tabCmd.inst = some "mainwindow.tabs" ∧ (some (3:Int)) = some (3:Int) ∧
    tabCmd.count = true ∧
    tabCmd.run (some ["x"]) (some 3) =
      .ok (.indirect "mainwindow.tabs" "tabopen" (some 3) (some ["x"])) :=
  ⟨rfl, rfl, rfl,
    (run_dispatch tabCmd ["x"] (some 3)).2 "mainwindow.tabs" 3 rfl rfl rfl⟩

/-- C3: mode gating is evaluated before the arity check, for any argument
list: a disallowed mode raises `InvalidModeError` naming the allowed modes
joined by `"/"`; if the `modes` gate passes and the current mode is in
`not_modes`, `InvalidModeError` names the forbidden modes. In particular an
invalid mode wins over an invalid argument count. -/
theorem check_mode_gate (c : Command) (mode : String) (args : List String) :
    (∀ ms, c.modes = some ms → ms.contains mode = false →
      c.check mode args = .error (.invalidMode
        ("This command is only allowed in " ++ String.intercalate "/" ms ++
          " mode."))) ∧
    (∀ ns, (c.modes = none ∨ ∃ ms, c.modes = some ms ∧ ms.contains mode = true) →
      c.notModes = some ns → ns.contains mode = true →
      c.check mode args = .error (.invalidMode
        ("This command is not allowed in " ++ String.intercalate "/" ns ++
          " mode."))) := by
  constructor
  · intro ms hms hc
    replace hc : mode ∉ ms := by simpa using hc
    simp [Command.check, hms, hc]
  · rintro ns hgate hns hc
    replace hc : mode ∈ ns := by simpa using hc
    rcases hgate with h | ⟨ms, hms, hmem⟩
    · simp [Command.check, h, hns, hc]
    · replace hmem : mode ∈ ms := by simpa using hmem
      simp [Command.check, hms, hmem, hns, hc]

/-- C3 witness: `tabCmd` is only allowed in `"command"` mode; calling it from
`"insert"` mode with an arity-violating empty argument list raises
`InvalidModeError`, not `ArgumentCountError`. -/
theorem check_mode_gate_witness :
    tabCmd.modes = some ["command"] ∧
    (["command"].contains "insert") = false ∧
    tabCmd.check "insert" [] =
      .error (.invalidMode "This command is only allowed in command mode.") := by
  refine ⟨rfl, rfl, ?_⟩
  exact (check_mode_gate tabCmd "insert" []).1 ["command"] rfl rfl

/-- C10: with no instance, `run` with null `args` raises `TypeError` while
unpacking `*args`, before the handler is entered; with an instance, null
`args` is accepted and forwarded as-is in the emitted tuple. -/
theorem run_null_args (c : Command) (count : Option Int) :
    (c.inst = none → c.run none count = .error .typeError) ∧
    (∀ i, c.inst = some i →
      ∃ k, c.run none count = .ok (.indirect i c.handlerName k none)) := by
  constructor
  · intro h
    simp [Command.run, h]
  · intro i hi
    by_cases h1 : (c.count && count.isSome) = true
    · exact ⟨count, by simp [Command.run, hi, h1]⟩
    · exact ⟨none, by simp [Command.run, hi, h1]⟩

/-- C10 witness: `openCmd` has no instance, so `run` with null args fails
with `TypeError`; `tabCmd` has one, so the null args are forwarded. -/
theorem run_null_args_witness :
    openCmd.inst = none ∧
    openCmd.run none (some 2) = .error .typeError := by
  refine ⟨rfl, ?_⟩
  exact (run_null_args openCmd (some 2)).1 rfl

/-! ## Sample prompt objects -/

/-- A fresh prompt with no question in flight. -/
def prompt0 : Prompt := {}

/-- A plain text question. -/
def qText : Question := { mode := .text, text := "Name?", default := .null }

/-- A username/password question. -/
def qPwd : Question := { mode := .user_pwd, text := "Login:", default := .null }

/-- A question whose mode is not a `PromptMode` member. -/
def qInvalid : Question := { mode := .invalid, text := "?", default := .null }

/-- The prompt showing `qPwd`, with `"alice"` typed into the field. -/
def pUser : Prompt := { question := some qPwd, inputText := "alice" }

/-- `qPwd` after the username step recorded `"alice"`. -/
def qPwd2 : Question := { qPwd with user := some "alice" }

/-- The password sub-step prompt with `"secret"` typed into the field. -/
def pPwd2 : Prompt :=
  { question := some qPwd2, txtText := "Password:", inputText := "secret",
    inputEcho := .Password }

/-! ## Claims about `Prompt` -/

/-- C4: for a `user_pwd` question in flight, the first accept records
`user` = field text, sets the label to `"Password:"`, clears the field,
masks the echo, leaves the answer null and performs no mode transition;
the second accept records `answer = (user, field_text)`, leaves `"prompt"`
mode and emits `hide_prompt`. -/
theorem user_pwd_two_step (p : Prompt) (q : Question)
    (hq : p.question = some q) (hm : q.mode = .user_pwd)
    (ha : q.answer = none) :
    (q.user = none →
      p.promptAccept =
        { state := { p with question := some ({ q with user := some p.inputText }), txtText := "Password:", inputText := "", inputEcho := .Password },
          sigs := [] }) ∧
    (∀ u, q.user = some u →
      p.promptAccept =
        { state := { p with question := some ({ q with answer := some (.userPwd (some u) p.inputText) }) },
          sigs := [.answered, .leaveMode "prompt" "prompt accept",
            .hidePrompt] }) := by
  constructor
  · intro hu
    simp [Prompt.promptAccept, hq, hm, hu]
  · intro u hu
    simp [Prompt.promptAccept, hq, hm, hu, answeredSigs, ha]

/-- C4 witness: the two accept steps on a concrete `user_pwd` question with
`"alice"` then `"secret"` in the field. -/
theorem user_pwd_two_step_witness :
    pUser.question = some qPwd ∧ qPwd.mode = .user_pwd ∧
    qPwd.answer = none ∧ qPwd.user = none ∧
    pUser.promptAccept =
      { state := { pUser with question := some ({ qPwd with user := some "alice" }), txtText := "Password:", inputText := "", inputEcho := .Password },
        sigs := [] } ∧
    pPwd2.question = some qPwd2 ∧ qPwd2.user = some "alice" ∧
    pPwd2.promptAccept =
      { state := { pPwd2 with question := some ({ qPwd2 with answer := some (.userPwd (some "alice") "secret") }) },
        sigs := [.answered, .leaveMode "prompt" "prompt accept",
          .hidePrompt] } := by
  refine ⟨rfl, rfl, rfl, rfl, ?_, rfl, rfl, ?_⟩
  · exact (user_pwd_two_step pUser qPwd rfl rfl rfl).1 rfl
  · exact (user_pwd_two_step pPwd2 qPwd2 rfl rfl rfl).2 "alice" rfl

/-- C8: for a `yesno` question, `display` sets the label to the question text
plus `" [y/n]"` (no default), `" [Y/n]"` (default true) or `" [y/N]"`
(default false), and hides the text-entry field. -/
theorem yesno_display (p : Prompt) (q : Question)
    (hq : p.question = some q) (hm : q.mode = .yesno) :
    (q.default = .null → p.display =
      { state := { p with txtText := q.text ++ " [y/n]", inputVisible := false },
        sigs := [.showPrompt] }) ∧
    (q.default = .bool true → p.display =
      { state := { p with txtText := q.text ++ " [Y/n]", inputVisible := false },
        sigs := [.showPrompt] }) ∧
    (q.default = .bool false → p.display =
      { state := { p with txtText := q.text ++ " [y/N]", inputVisible := false },
        sigs := [.showPrompt] }) := by
  refine ⟨?_, ?_, ?_⟩ <;> intro hd <;>
    simp [Prompt.display, hq, hm, hd, PyVal.truthy]

/-- C8 witness: a concrete yesno question with default true. -/
theorem yesno_display_witness :
    (Prompt.mk (some (Question.mk .yesno "Quit?" (.bool true) none none))
        "" "" .Normal true).display =
      { state := Prompt.mk (some (Question.mk .yesno "Quit?" (.bool true) none none)) "Quit? [Y/n]" "" .Normal false,
        sigs := [.showPrompt] } := by
  have h := (yesno_display
    (Prompt.mk (some (Question.mk .yesno "Quit?" (.bool true) none none))
      "" "" .Normal true)
    (Question.mk .yesno "Quit?" (.bool true) none none) rfl rfl).2.1 rfl
  exact h

/-- A prompt whose input field still holds stale text from earlier input,
about to display a text question whose default is the empty string. -/
def pStale : Prompt :=
  { question := some { mode := .text, text := "Name?", default := .str "" },
    inputText := "stale" }

/-- C9 counterexample: the claim says the field is pre-filled whenever the
default is non-null. Here the default is the non-null empty string, yet
`display` leaves the stale field contents untouched (the source tests Python
truthiness, `if q.default:`, not nullness). -/
theorem text_prefill_counterexample :
    pStale.question.map Question.default = some (.str "") ∧
    (PyVal.str "" ≠ PyVal.null) ∧
    pStale.display.err = none ∧
    pStale.display.state.inputText = "stale" ∧
    pStale.display.state.inputText ≠ "" := by decide

/-- C9 amended: for a `text` or `user_pwd` question, `display` shows the
text-entry field, and pre-fills it with the default whenever the default is a
truthy (non-empty) string; a null or empty-string default leaves the field's
previous contents unchanged. -/
theorem text_prefill (p : Prompt) (q : Question)
    (hq : p.question = some q)
    (hm : q.mode = .text ∨ q.mode = .user_pwd) :
    (∀ s, q.default = .str s → s ≠ "" → p.display =
      { state := { p with txtText := q.text, inputText := s, inputVisible := true },
        sigs := [.showPrompt] }) ∧
    ((q.default = .null ∨ q.default = .str "") → p.display =
      { state := { p with txtText := q.text, inputVisible := true },
        sigs := [.showPrompt] }) := by
  constructor
  · intro s hd hs
    rcases hm with h | h <;>
      simp [Prompt.display, hq, h, hd, PyVal.truthy, hs]
  · intro hd
    rcases hm with h | h <;> rcases hd with hd | hd <;>
      simp [Prompt.display, hq, h, hd, PyVal.truthy]

/-- C9 witness: a text question with default `"bob"` pre-fills the field;
one with a null default shows the field with its contents unchanged. -/
theorem text_prefill_witness :
    (Prompt.mk (some (Question.mk .text "Name?" (.str "bob") none none))
        "" "" .Normal true).question =
      some (Question.mk .text "Name?" (.str "bob") none none) ∧
    ("bob" : String) ≠ "" ∧
    (Prompt.mk (some (Question.mk .text "Name?" (.str "bob") none none))
        "" "" .Normal true).display =
      { state := Prompt.mk (some (Question.mk .text "Name?" (.str "bob") none none)) "Name?" "bob" .Normal true,
        sigs := [.showPrompt] } := by
  refine ⟨rfl, by decide, ?_⟩
  exact (text_prefill
    (Prompt.mk (some (Question.mk .text "Name?" (.str "bob") none none))
      "" "" .Normal true)
    (Question.mk .text "Name?" (.str "bob") none none) rfl
    (Or.inl rfl)).1 "bob" rfl (by decide)

/-- C6 counterexample: the claim says no Prompt state, including the stored
question reference, is mutated on the ValueError path. But `ask_question`
assigns `self.question = question` before calling `display`, so the stored
reference has changed when the ValueError propagates. -/
theorem ask_mutation_counterexample :
    prompt0.question = none ∧
    (prompt0.askQuestion qInvalid).err = some .valueError ∧
    (prompt0.askQuestion qInvalid).state.question = some qInvalid ∧
    (prompt0.askQuestion qInvalid).state.question ≠ prompt0.question := by
  decide

/-- C6 amended: for a question whose mode is not a `PromptMode` member,
`display` itself raises ValueError without mutating any state or emitting any
signal; `ask_question`, however, stores the question reference before
displaying, so on its failure path exactly that one field has changed. -/
theorem invalid_mode_fail (p : Prompt) (q : Question)
    (hm : q.mode = .invalid) :
    p.askQuestion q =
      { state := { p with question := some q }, sigs := [],
        err := some .valueError } ∧
    (∀ p2 : Prompt, p2.question = some q →
      p2.display = { state := p2, sigs := [], err := some .valueError }) := by
  constructor
  · simp [Prompt.askQuestion, Prompt.display, hm]
  · intro p2 h2
    simp [Prompt.display, h2, hm]

/-- C6 witness: the invalid-mode question on a fresh prompt. -/
theorem invalid_mode_fail_witness :
    qInvalid.mode = .invalid ∧
    prompt0.askQuestion qInvalid =
      { state := { prompt0 with question := some qInvalid }, sigs := [],
        err := some .valueError } := by
  refine ⟨rfl, ?_⟩
  exact (invalid_mode_fail prompt0 qInvalid rfl).1

/-- C5 counterexample: the first forced mode exit cancels the question (the
blocking call returns null, `cancelled` fires once), but a subsequent
`on_mode_left('prompt')` is not a no-op: since cancellation never sets
`question.answer`, the handler emits `cancelled` again. -/
theorem cancel_noop_counterexample :
    (prompt0.askQuestionB qText true [.modeLeft "prompt"]).2 = some none ∧
    ((prompt0.askQuestion qText).state.onModeLeft "prompt").sigs.count
      .cancelled = 1 ∧
    (((prompt0.askQuestion qText).state.onModeLeft "prompt").state.onModeLeft
      "prompt").sigs.count .cancelled = 1 ∧
    (((prompt0.askQuestion qText).state.onModeLeft "prompt").state.onModeLeft
      "prompt").sigs ≠ [] := by decide

/-- C5 corrected: after a blocking ask followed by a forced mode exit before
any accept, the blocking call returns null and `cancelled` fires exactly once
in that exit. A subsequent `on_mode_left('prompt')` leaves the (already
cleared) state unchanged but re-emits `hide_prompt` and `cancelled`, because
cancellation leaves the answer null; idempotence holds only for questions
whose answer was already recorded. -/
theorem cancel_refire (p : Prompt) (q : Question)
    (hm : q.mode = .text) (hd : q.default = .null) (ha : q.answer = none) :
    (p.askQuestionB q true [.modeLeft "prompt"]).2 = some none ∧
    ((p.askQuestion q).state.onModeLeft "prompt").sigs.count .cancelled = 1 ∧
    (((p.askQuestion q).state.onModeLeft "prompt").state.onModeLeft
      "prompt").state = ((p.askQuestion q).state.onModeLeft "prompt").state ∧
    (((p.askQuestion q).state.onModeLeft "prompt").state.onModeLeft
      "prompt").sigs = [.hidePrompt, .cancelled] := by
  have hqc : quitSig [Sig.hidePrompt, Sig.cancelled] = some .cancelled := by
    decide
  have h1 : p.askQuestion q =
      { state := { p with question := some q, txtText := q.text, inputVisible := true },
        sigs := [.showPrompt] } := by
    simp [Prompt.askQuestion, Prompt.display, hm, hd, PyVal.truthy]
  have h2 : ((p.askQuestion q).state.onModeLeft "prompt") =
      { state := { p with question := some q, txtText := "", inputText := "", inputEcho := .Normal, inputVisible := true },
        sigs := [.hidePrompt, .cancelled] } := by
    rw [h1]
    simp [Prompt.onModeLeft, ha]
  refine ⟨?_, ?_, ?_, ?_⟩
  · simp [Prompt.askQuestionB, h1, Prompt.execLoop, Prompt.step]
    rw [show ({ p with question := some q, txtText := q.text, inputVisible := true } : Prompt).onModeLeft "prompt" =
        { state := { p with question := some q, txtText := "", inputText := "", inputEcho := .Normal, inputVisible := true },
          sigs := [.hidePrompt, .cancelled] } from by
      simp [Prompt.onModeLeft, ha]]
    simp [hqc, ha]
  · rw [h2]
    simp
  · rw [h2]
    simp [Prompt.onModeLeft, ha]
  · rw [h2]
    simp [Prompt.onModeLeft, ha]

/-- C5 witness for the corrected statement, on a concrete text question. -/
theorem cancel_refire_witness :
    qText.mode = .text ∧ qText.default = .null ∧ qText.answer = none ∧
    (prompt0.askQuestionB qText true [.modeLeft "prompt"]).2 = some none ∧
    (((prompt0.askQuestion qText).state.onModeLeft "prompt").state.onModeLeft
      "prompt").sigs = [.hidePrompt, .cancelled] := by
  refine ⟨rfl, rfl, rfl, ?_, ?_⟩
  · exact (cancel_refire prompt0 qText rfl rfl rfl).1
  · exact (cancel_refire prompt0 qText rfl rfl rfl).2.2.2

/-- Helper: when one event's signals quit the local event loop, the question's
answer is non-null if the quitting signal was `answered`, and still null if it
was `cancelled`. -/
theorem step_quit (p : Prompt) (e : UserEvent) :
    (quitSig (p.step e).sigs = some .answered →
      (p.step e).state.question.bind Question.answer ≠ none) ∧
    (quitSig (p.step e).sigs = some .cancelled →
      (p.step e).state.question.bind Question.answer = none) := by
  have hqnone : quitSig [] = none := by decide
  have hqa1 : quitSig [Sig.answered, Sig.leaveMode "prompt" "prompt accept",
      Sig.hidePrompt] = some .answered := by decide
  have hqa2 : quitSig [Sig.answered, Sig.leaveMode "prompt" "prompt accept"] =
      some .answered := by decide
  have hql1 : quitSig [Sig.leaveMode "prompt" "prompt accept",
      Sig.hidePrompt] = none := by decide
  have hql2 : quitSig [Sig.leaveMode "prompt" "prompt accept"] = none := by
    decide
  have hqh : quitSig [Sig.hidePrompt] = none := by decide
  have hqc : quitSig [Sig.hidePrompt, Sig.cancelled] = some .cancelled := by
    decide
  cases e with
  | accept =>
    cases hq : p.question with
    | none => simp [Prompt.step, Prompt.promptAccept, hq, hqnone]
    | some q =>
      by_cases h1 : q.mode = .user_pwd
      · by_cases h2 : q.user.isNone = true
        · simp [Prompt.step, Prompt.promptAccept, hq, h1, h2, hqnone]
        · cases hans : q.answer with
          | none =>
            simp [Prompt.step, Prompt.promptAccept, hq, h1, h2, hans,
              answeredSigs, hqa1]
          | some a =>
            simp [Prompt.step, Prompt.promptAccept, hq, h1, h2, hans,
              answeredSigs, hql1]
      · cases hans : q.answer with
        | none =>
          simp [Prompt.step, Prompt.promptAccept, hq, h1, hans,
            answeredSigs, hqa2]
        | some a =>
          simp [Prompt.step, Prompt.promptAccept, hq, h1, hans,
            answeredSigs, hql2]
  | modeLeft m =>
    by_cases hm : m = "prompt"
    · cases hq : p.question with
      | none => simp [Prompt.step, Prompt.onModeLeft, hm, hq, hqh]
      | some q =>
        cases hans : q.answer with
        | none => simp [Prompt.step, Prompt.onModeLeft, hm, hq, hans, hqc]
        | some a => simp [Prompt.step, Prompt.onModeLeft, hm, hq, hans, hqh]
    · simp [Prompt.step, Prompt.onModeLeft, hm, hqnone]

/-- Helper: the answer returned by the local event loop is non-null when the
loop was quit by `answered` and null when it was quit by `cancelled`. -/
theorem execLoop_quit (evs : List UserEvent) :
    ∀ (p : Prompt) (s : Sig) (a : Option Answer),
      p.execLoop evs = some (s, a) →
      (s = .answered → a ≠ none) ∧ (s = .cancelled → a = none) := by
  induction evs with
  | nil =>
    intro p s a h
    simp [Prompt.execLoop] at h
  | cons e es ih =>
    intro p s a h
    rw [Prompt.execLoop] at h
    cases hq : quitSig ((p.step e).sigs) with
    | none =>
      rw [hq] at h
      exact ih _ _ _ h
    | some s0 =>
      rw [hq] at h
      simp only [Option.some.injEq, Prod.mk.injEq] at h
      obtain ⟨hs, ha⟩ := h
      subst hs
      subst ha
      constructor
      · intro hs0
        subst hs0
        exact (step_quit p e).1 hq
      · intro hs0
        subst hs0
        exact (step_quit p e).2 hq

/-- C7: for a question `display` accepts, the non-blocking ask returns null
immediately; the blocking ask returns `question.answer` as of the event that
quit the wait — a non-null answer when the `answered` notification fired, and
null when the question was cancelled before being answered. -/
theorem ask_question_returns (p : Prompt) (q : Question)
    (evs : List UserEvent) (hv : (p.askQuestion q).err = none) :
    (p.askQuestionB q false evs).2 = some none ∧
    (∀ s a, (p.askQuestion q).state.execLoop evs = some (s, a) →
      (p.askQuestionB q true evs).2 = some a ∧
      (s = .answered → a ≠ none) ∧
      (s = .cancelled → a = none)) := by
  constructor
  · simp [Prompt.askQuestionB, hv]
  · intro s a h
    refine ⟨?_, (execLoop_quit evs _ s a h).1, (execLoop_quit evs _ s a h).2⟩
    simp [Prompt.askQuestionB, hv, h]

/-- C7 witness: a text question answered by one accept returns its (non-null)
answer from the blocking ask, and `none` from the non-blocking one. -/
theorem ask_question_returns_witness :
    (prompt0.askQuestion qText).err = none ∧
    (prompt0.askQuestion qText).state.execLoop [.accept] =
      some (.answered, some (.str "")) ∧
    (prompt0.askQuestionB qText false [.accept]).2 = some none ∧
    (prompt0.askQuestionB qText true [.accept]).2 = some (some (.str "")) := by
  refine ⟨rfl, by decide, ?_, ?_⟩
  · exact (ask_question_returns prompt0 qText [.accept] rfl).1
  · exact ((ask_question_returns prompt0 qText [.accept] rfl).2 .answered
      (some (.str "")) (by decide)).1

end Qutebrowser
